import Mathlib

/-!
Verification of the incremental list loader, form validator and table
presenter of the movie / TV-show manager frontend.

The definitions below are a shallow embedding of the TypeScript source:
  * `src/lib/api.ts`        — remote data client (`movieApi`, `tvShowApi`,
                              `PaginatedResponse`);
  * `src/App.tsx`           — application shell: loader state
                              (`data`/`page`/`hasMore`), `fetchData`, the
                              reset performed on tab change and after a
                              successful create/update/delete, and the
                              column descriptors `movieColumns`;
  * `src/components/DataTable/DataTable.tsx`   — `formatValue` and the
                              infinite-scroll continuation (`loadMore`
                              fires only while `hasMore` is true);
  * `src/components/TVShowForm/TVShowForm.tsx` and the two MovieForm
    variants — zod schemas, `validateField`, `handleChange`, `handleBlur`,
    `handleSubmit`.

JavaScript numbers are modelled as rationals (`ℚ`): every numeric value the
claims exercise is small and exactly representable, and zod's `.int()`
check is the integrality test `q.den = 1`.  `NaN` is modelled as the
`none` case of `Option ℚ` where it can arise (`parseFloat`).
-/

namespace Frontend

/-- A field value as stored in a form's `formData` or in a table row:
a JS string, a JS number, or `null`/`undefined` (both modelled as
`undef`). -/
inductive FieldValue where
  | str (s : String)
  | num (q : ℚ)
  | undef
deriving DecidableEq

/-! ## Remote data client (`src/lib/api.ts`) -/

/-- `meta` of a paginated response (api.ts lines 42-47). -/
structure Meta where
  total : Nat
  page : Nat
  limit : Nat
  hasMore : Bool
deriving DecidableEq

/-- `PaginatedResponse<T>` (api.ts lines 40-48): `response.data` of a
successful `getAll` call. -/
structure PaginatedResponse (α : Type) where
  data : List α
  meta : Meta
deriving DecidableEq

/-- A `GET /{kind}?page={n}&limit={m}` request as built by
`movieApi.getAll` / `tvShowApi.getAll`. -/
structure GetAllRequest where
  path : String
  page : Nat
  limit : Nat
deriving DecidableEq

/-- `movieApi.getAll(page, limit)` (api.ts line 53-54). -/
def movieGetAll (page limit : Nat) : GetAllRequest :=
  ⟨"/movies?page=" ++ toString page ++ "&limit=" ++ toString limit, page, limit⟩

/-- `tvShowApi.getAll(page, limit)` (api.ts line 63-64). -/
def tvShowGetAll (page limit : Nat) : GetAllRequest :=
  ⟨"/tvshows?page=" ++ toString page ++ "&limit=" ++ toString limit, page, limit⟩

/-- The active record kind (`activeTab` in App.tsx). -/
inductive Tab where
  | movies
  | tvshows
deriving DecidableEq

/-- `const api = activeTab === 'movies' ? movieApi : tvShowApi` followed by
`api.getAll` (App.tsx lines 24-26). -/
def apiGetAll : Tab → Nat → Nat → GetAllRequest
  | Tab.movies => movieGetAll
  | Tab.tvshows => tvShowGetAll

/-! ## Incremental list loader (`src/App.tsx`) -/

/-- The loader state owned by the application shell: `data`, `page` and
`hasMore` (App.tsx lines 12-14).  `items` is the spec's name for `data`. -/
structure LoaderState (α : Type) where
  items : List α
  page : Nat
  hasMore : Bool
deriving DecidableEq

/-- The initial loader state: `useState<MediaItem[]>([])`,
`useState(1)`, `useState(true)` (App.tsx lines 12-14). -/
def initialLoader (α : Type) : LoaderState α := ⟨[], 1, true⟩

/-- The reset performed on every tab change and after every successful
create/update/delete: `setPage(1); setData([])` (App.tsx lines 42-46,
57-60, 70-74, 82-86, 95-100, 110-115).  Note that none of these call
sites touches `hasMore`. -/
def resetLoader (s : LoaderState α) : LoaderState α :=
  { items := [], page := 1, hasMore := s.hasMore }

/-- The request issued by `fetchData`: `api.getAll(page, 10)`
(App.tsx line 26). -/
def fetchRequest (tab : Tab) (s : LoaderState α) : GetAllRequest :=
  apiGetAll tab s.page 10

/-- The state update of `fetchData` on a successful response
(App.tsx lines 29-34): replace `data` when `page === 1`, append
otherwise, and take `hasMore` from `response.data.meta.hasMore`. -/
def applyFetchSuccess (s : LoaderState α) (r : PaginatedResponse α) : LoaderState α :=
  { items := if s.page = 1 then r.data else s.items ++ r.data,
    page := s.page,
    hasMore := r.meta.hasMore }

/-- `fetchData`'s effect on the loader state given the outcome of the
`getAll` call: the `try` branch applies the success update, the `catch`
branch (App.tsx lines 35-39) only logs and leaves the state unchanged. -/
def fetchData (s : LoaderState α) : Except String (PaginatedResponse α) → LoaderState α
  | Except.ok r => applyFetchSuccess s r
  | Except.error _ => s

/-- The scroll-end continuation: `InfiniteScroll` invokes
`next={loadMore}`, i.e. `setPage(p => p + 1)`, only while its `hasMore`
prop is true (DataTable.tsx lines 123-126, App.tsx line 306); the page
change then triggers the `useEffect` on `page` which calls `fetchData`
(App.tsx lines 48-52). -/
def advanceIfMore (s : LoaderState α) : LoaderState α :=
  if s.hasMore then { s with page := s.page + 1 } else s

/-- A `loadNext` step as seen from the shell: when `hasMore` is true the
cursor advances and a request for the new cursor with limit 10 is issued;
when `hasMore` is false the infinite-scroll component never fires `next`,
so nothing changes and no request is made. -/
def loadNext (tab : Tab) (s : LoaderState α) : LoaderState α × Option GetAllRequest :=
  if s.hasMore then
    (advanceIfMore s, some (fetchRequest tab (advanceIfMore s)))
  else
    (s, none)

/-- The loader events that can reach the shell's state. -/
inductive LoaderEv (α : Type) where
  | reset
  | response (outcome : Except String (PaginatedResponse α))
  | scrollEnd

/-- One step of the loader state machine. -/
def stepLoader (s : LoaderState α) : LoaderEv α → LoaderState α
  | LoaderEv.reset => resetLoader s
  | LoaderEv.response o => fetchData s o
  | LoaderEv.scrollEnd => advanceIfMore s

/-- Running the loader over a trace of events. -/
def runTrace (s : LoaderState α) (evs : List (LoaderEv α)) : LoaderState α :=
  evs.foldl stepLoader s

/-- Does this event deliver a successful page response whose
`meta.hasMore` is false? -/
def hasMoreFalseResponse : LoaderEv α → Bool
  | LoaderEv.response (Except.ok r) => !r.meta.hasMore
  | _ => false

/-- A maximal run of successful `loadNext` calls: each response is applied
by `fetchData`, after which the caller advances the cursor
(`setPage(p => p + 1)`) before requesting the next page. -/
def runSuccesses (s : LoaderState α) : List (PaginatedResponse α) → LoaderState α
  | [] => s
  | r :: rs => runSuccesses { applyFetchSuccess s r with page := s.page + 1 } rs

/-! ### Loader lemmas -/

theorem stepLoader_hasMore_false {α : Type} (s : LoaderState α) (e : LoaderEv α)
    (h : (stepLoader s e).hasMore = false) :
    s.hasMore = false ∨ hasMoreFalseResponse e = true := by
  cases e with
  | reset => exact Or.inl h
  | response o =>
    cases o with
    | ok r =>
      refine Or.inr ?_
      simp only [stepLoader, fetchData, applyFetchSuccess] at h
      simp [hasMoreFalseResponse, h]
    | error e => exact Or.inl h
  | scrollEnd =>
    refine Or.inl ?_
    simp only [stepLoader, advanceIfMore] at h
    by_cases hm : s.hasMore = true
    · simp [hm] at h
    · simpa using hm

theorem runTrace_hasMore_false {α : Type} :
    ∀ (evs : List (LoaderEv α)) (s : LoaderState α),
      (runTrace s evs).hasMore = false →
      s.hasMore = false ∨ evs.any hasMoreFalseResponse = true := by
  intro evs
  induction evs with
  | nil => intro s h; exact Or.inl h
  | cons e evs ih =>
    intro s h
    rcases ih (stepLoader s e) h with h' | h'
    · rcases stepLoader_hasMore_false s e h' with h2 | h2
      · exact Or.inl h2
      · exact Or.inr (by simp [List.any_cons, h2])
    · exact Or.inr (by simp [List.any_cons, h'])

theorem runSuccesses_items_of_two_le {α : Type} :
    ∀ (rs : List (PaginatedResponse α)) (s : LoaderState α), 2 ≤ s.page →
      (runSuccesses s rs).items = s.items ++ (rs.map PaginatedResponse.data).flatten := by
  intro rs
  induction rs with
  | nil => intro s _; simp [runSuccesses]
  | cons r rs ih =>
    intro s hs
    have hne : s.page ≠ 1 := by omega
    have hthis := ih { applyFetchSuccess s r with page := s.page + 1 }
      (show 2 ≤ s.page + 1 by omega)
    simp only [applyFetchSuccess] at hthis
    simp only [runSuccesses, applyFetchSuccess, if_neg hne] at hthis ⊢
    rw [hthis]
    simp [List.append_assoc]

/-! ## Claim theorems for the loader -/

/-- Claim C1, counterexample: the claim states that every reset yields a
state with `hasMore = true`; but resetting a loader whose `hasMore` is
false leaves `hasMore` false, because no reset call site in App.tsx calls
`setHasMore(true)`. -/
theorem claim_C1_counterexample :
    ¬ ((resetLoader (⟨[1], 3, false⟩ : LoaderState Nat)).hasMore = true) := by
  decide

/-- Claim C1, amended: every reset — triggered on a record-kind change or
after a successful create/update/delete — clears `items` to the empty
list and sets `page` to 1, but leaves `hasMore` unchanged (it is only
refreshed by the next page response). -/
theorem claim_C1_amended {α : Type} (s : LoaderState α) :
    (resetLoader s).items = [] ∧ (resetLoader s).page = 1 ∧
      (resetLoader s).hasMore = s.hasMore :=
  ⟨rfl, rfl, rfl⟩

/-- Claim C4: `fetchData` requests the page equal to the current cursor
with fixed page length 10; on success, when the cursor is 1 the returned
page replaces `items` and otherwise is appended, and `hasMore` is set to
the `hasMore` flag of the response's `meta`. -/
theorem claim_C4 {α : Type} (tab : Tab) (s : LoaderState α) (r : PaginatedResponse α) :
    (fetchRequest tab s).page = s.page ∧
    (fetchRequest tab s).limit = 10 ∧
    (fetchData s (Except.ok r)).items
      = (if s.page = 1 then r.data else s.items ++ r.data) ∧
    (fetchData s (Except.ok r)).page = s.page ∧
    (fetchData s (Except.ok r)).hasMore = r.meta.hasMore := by
  refine ⟨?_, ?_, rfl, rfl, rfl⟩ <;> cases tab <;> rfl

/-- Claim C5: starting from a reset state, a sequence of successful
`loadNext` calls (cursor advanced between calls) leaves `items` equal to
the concatenation of the returned pages in request order, and the length
of `items` never exceeds the sum of the returned page sizes. -/
theorem claim_C5 {α : Type} (s0 : LoaderState α) (rs : List (PaginatedResponse α)) :
    (runSuccesses (resetLoader s0) rs).items = (rs.map PaginatedResponse.data).flatten ∧
    (runSuccesses (resetLoader s0) rs).items.length
      ≤ (rs.map (fun r => r.data.length)).sum := by
  have hitems : (runSuccesses (resetLoader s0) rs).items
      = (rs.map PaginatedResponse.data).flatten := by
    cases rs with
    | nil => simp [runSuccesses, resetLoader]
    | cons r rs =>
      have hthis := runSuccesses_items_of_two_le rs
        { applyFetchSuccess (resetLoader s0) r with page := (resetLoader s0).page + 1 }
        (show 2 ≤ (resetLoader s0).page + 1 by simp [resetLoader])
      simp only [applyFetchSuccess, resetLoader] at hthis
      simp only [runSuccesses, applyFetchSuccess, resetLoader] at hthis ⊢
      simp at hthis ⊢
      rw [hthis]
  refine ⟨hitems, ?_⟩
  rw [hitems, List.length_flatten, List.map_map]
  exact le_of_eq rfl

/-- Claim C6: a `loadNext` whose page fetch fails leaves `items`, `page`
and `hasMore` all unchanged — the `catch` branch of `fetchData` only
logs — so the caller may retry. -/
theorem claim_C6 {α : Type} (s : LoaderState α) (e : String) :
    (fetchData s (Except.error e)).items = s.items ∧
    (fetchData s (Except.error e)).page = s.page ∧
    (fetchData s (Except.error e)).hasMore = s.hasMore :=
  ⟨rfl, rfl, rfl⟩

/-- Claim C3: in any state reached from a reset-with-`hasMore`-true state
by loader steps, `hasMore` is false only if some page response in the
trace carried `meta.hasMore = false`; and once `hasMore` is false, a
further `loadNext` is a no-op issuing no request. -/
theorem claim_C3 {α : Type} (s0 : LoaderState α) (evs : List (LoaderEv α))
    (tab : Tab) (s : LoaderState α)
    (h0 : s0.hasMore = true) (hs : s.hasMore = false) :
    ((runTrace s0 evs).hasMore = false → evs.any hasMoreFalseResponse = true) ∧
    loadNext tab s = (s, none) := by
  constructor
  · intro h
    rcases runTrace_hasMore_false evs s0 h with h' | h'
    · rw [h0] at h'; cases h'
    · exact h'
  · simp [loadNext, hs]

/-- Witness for C3 at a concrete trace: one successful response with
`meta.hasMore = false`, and a concrete exhausted state on which
`loadNext` is a no-op. -/
theorem claim_C3_witness :
    ((runTrace (initialLoader Nat)
        [LoaderEv.response (Except.ok ⟨[7], ⟨1, 1, 10, false⟩⟩)]).hasMore = false →
      ([LoaderEv.response (Except.ok (⟨[7], ⟨1, 1, 10, false⟩⟩ : PaginatedResponse Nat))].any
        hasMoreFalseResponse) = true) ∧
    loadNext Tab.movies (⟨[7], 1, false⟩ : LoaderState Nat) = (⟨[7], 1, false⟩, none) :=
  claim_C3 (initialLoader Nat)
    [LoaderEv.response (Except.ok ⟨[7], ⟨1, 1, 10, false⟩⟩)]
    Tab.movies ⟨[7], 1, false⟩ rfl rfl

/-! ## Field validator (zod schemas in the form components)

Each zod field shape is embedded as a function from a `FieldValue` to its
ordered list of violation messages (`[]` = valid).  Zod first checks the
value's type (a wrong type yields a single issue and skips the checks),
then runs every declared check in order, collecting all failures. -/

/-- `z.string().min(1, msg)`. -/
def zodStringMin1 (msg : String) : FieldValue → List String
  | FieldValue.str s => if s.length < 1 then [msg] else []
  | FieldValue.num _ => ["Expected string, received number"]
  | FieldValue.undef => ["Required"]

/-- `z.string()` with no checks (inside `.optional()` for `poster`). -/
def zodStringPlain : FieldValue → List String
  | FieldValue.str _ => []
  | FieldValue.num _ => ["Expected string, received number"]
  | FieldValue.undef => ["Required"]

/-- `.optional()`: `undefined` passes, anything else runs the inner shape. -/
def zodOpt (inner : FieldValue → List String) : FieldValue → List String
  | FieldValue.undef => []
  | v => inner v

/-- `z.number().min(bound, msg)`. -/
def zodNumberMin (bound : ℚ) (msg : String) : FieldValue → List String
  | FieldValue.num q => if q < bound then [msg] else []
  | FieldValue.str _ => ["Expected number, received string"]
  | FieldValue.undef => ["Required"]

/-- `z.number().int().min(bound, msg)`: the `.int()` check is
integrality of the rational (`q.den = 1`), then the bound check; zod
collects every failed check. -/
def zodNumberIntMin (bound : ℚ) (msg : String) : FieldValue → List String
  | FieldValue.num q =>
      (if q.den = 1 then [] else ["Expected integer, received float"]) ++
      (if q < bound then [msg] else [])
  | FieldValue.str _ => ["Expected number, received string"]
  | FieldValue.undef => ["Required"]

/-- `z.literal(lit).default(lit)`: `undefined` takes the default and
passes; any other value must equal the literal. -/
def zodLiteralDefault (lit : String) : FieldValue → List String
  | FieldValue.undef => []
  | FieldValue.str s =>
      if s = lit then [] else ["Invalid literal value, expected \"" ++ lit ++ "\""]
  | FieldValue.num _ => ["Invalid literal value, expected \"" ++ lit ++ "\""]

/-- `movieSchema` (MovieForm variants, identical in both): field name to
field shape, in declaration order. -/
def movieSchemaFields : List (String × (FieldValue → List String)) :=
  [("title", zodStringMin1 "Title is required"),
   ("type", zodLiteralDefault "movie"),
   ("director", zodStringMin1 "Director is required"),
   ("budget", zodNumberMin 0 "Budget must be positive"),
   ("location", zodStringMin1 "Location is required"),
   ("duration", zodNumberIntMin 1 "Duration must be positive"),
   ("year", zodNumberIntMin 1900 "Year must be after 1900"),
   ("poster", zodOpt zodStringPlain)]

/-- `tvShowSchema` (TVShowForm.tsx lines 5-15). -/
def tvShowSchemaFields : List (String × (FieldValue → List String)) :=
  [("title", zodStringMin1 "Title is required"),
   ("type", zodLiteralDefault "tvshow"),
   ("director", zodStringMin1 "Director is required"),
   ("budget", zodNumberMin 0 "Budget must be positive"),
   ("location", zodStringMin1 "Location is required"),
   ("duration", zodNumberIntMin 1 "Duration must be positive"),
   ("startYear", zodNumberIntMin 1900 "Start year must be after 1900"),
   ("endYear", zodOpt (zodNumberIntMin 1900 "End year must be after 1900")),
   ("poster", zodOpt zodStringPlain)]

/-- `validateField(name, value)` = `schema.shape[name].parse(value)`,
returning the issue messages (empty list when the parse succeeds). -/
def validateFieldBy (shape : List (String × (FieldValue → List String)))
    (name : String) (v : FieldValue) : List String :=
  match shape.lookup name with
  | some chk => chk v
  | none => []

def validateFieldMovie (name : String) (v : FieldValue) : List String :=
  validateFieldBy movieSchemaFields name v

def validateFieldTV (name : String) (v : FieldValue) : List String :=
  validateFieldBy tvShowSchemaFields name v

/-- The candidate movie record held in `formData` (all fields possibly
absent, hence `FieldValue`). -/
structure MovieFormData where
  title : FieldValue
  type : FieldValue
  director : FieldValue
  budget : FieldValue
  location : FieldValue
  duration : FieldValue
  year : FieldValue
  poster : FieldValue
deriving DecidableEq

/-- The candidate TV-show record held in `formData`. -/
structure TVShowFormData where
  title : FieldValue
  type : FieldValue
  director : FieldValue
  budget : FieldValue
  location : FieldValue
  duration : FieldValue
  startYear : FieldValue
  endYear : FieldValue
  poster : FieldValue
deriving DecidableEq

def getMovieField (fd : MovieFormData) : String → FieldValue
  | "title" => fd.title
  | "type" => fd.type
  | "director" => fd.director
  | "budget" => fd.budget
  | "location" => fd.location
  | "duration" => fd.duration
  | "year" => fd.year
  | "poster" => fd.poster
  | _ => FieldValue.undef

def getTVField (fd : TVShowFormData) : String → FieldValue
  | "title" => fd.title
  | "type" => fd.type
  | "director" => fd.director
  | "budget" => fd.budget
  | "location" => fd.location
  | "duration" => fd.duration
  | "startYear" => fd.startYear
  | "endYear" => fd.endYear
  | "poster" => fd.poster
  | _ => FieldValue.undef

/-- `schema.parse(record)` on the whole object: every field's shape runs
on the field's value and the issues are collected, tagged with the field
name, in field-declaration order. -/
def validateAllBy (shape : List (String × (FieldValue → List String)))
    (get : String → FieldValue) : List (String × String) :=
  shape.foldr (fun f acc => ((f.2 (get f.1)).map (fun m => (f.1, m))) ++ acc) []

def validateAllMovie (fd : MovieFormData) : List (String × String) :=
  validateAllBy movieSchemaFields (getMovieField fd)

def validateAllTV (fd : TVShowFormData) : List (String × String) :=
  validateAllBy tvShowSchemaFields (getTVField fd)

/-- The `.default('movie')` transformation `parse` applies on success. -/
def applyMovieDefaults (fd : MovieFormData) : MovieFormData :=
  { fd with type := match fd.type with
      | FieldValue.undef => FieldValue.str "movie"
      | t => t }

/-- The `.default('tvshow')` transformation `parse` applies on success. -/
def applyTVDefaults (fd : TVShowFormData) : TVShowFormData :=
  { fd with type := match fd.type with
      | FieldValue.undef => FieldValue.str "tvshow"
      | t => t }

/-! ### Form state: `errors` and `touched` -/

/-- `newErrors[field] = [msg]` / `{ ...prev, [name]: msgs }`: replace the
entry for a key in an association list. -/
def setEntry : List (String × List String) → String → List String →
    List (String × List String)
  | [], n, v => [(n, v)]
  | (k, w) :: rest, n, v =>
      if k = n then (k, v) :: rest else (k, w) :: setEntry rest n v

/-- `if (!newErrors[path]) newErrors[path] = []; newErrors[path].push(msg)`
(the part_001 MovieForm variant): append a message to a key's entry. -/
def pushEntry : List (String × List String) → String → String →
    List (String × List String)
  | [], n, m => [(n, [m])]
  | (k, w) :: rest, n, m =>
      if k = n then (k, w ++ [m]) :: rest else (k, w) :: pushEntry rest n m

/-- `errors[field]`: the message list recorded for a field (empty when
absent). -/
def errLookup (es : List (String × List String)) (n : String) : List String :=
  (es.lookup n).getD []

/-- State carried by the TV-show form: `formData`, `errors`, `touched`. -/
structure TVFormState where
  formData : TVShowFormData
  errors : List (String × List String)
  touched : List String
deriving DecidableEq

/-- State carried by the movie form. -/
structure MovieFormState where
  formData : MovieFormData
  errors : List (String × List String)
  touched : List String
deriving DecidableEq

/-- `Object.keys(formData)` for the movie form, in initializer order
(part_001 lines 22-32). -/
def movieFormKeys : List String :=
  ["type", "title", "director", "budget", "location", "duration", "year", "poster"]

/-- `handleSubmit` of TVShowForm.tsx (lines 76-93): on a clean parse the
validated data is passed to `onSubmit`; on a `ZodError` the errors map is
rebuilt from scratch with `newErrors[err.path[0]] = [err.message]` (the
last issue per field wins) and — notably — `touched` is left unchanged. -/
def handleSubmitTV (st : TVFormState) : TVFormState × Option TVShowFormData :=
  match validateAllTV st.formData with
  | [] => (st, some (applyTVDefaults st.formData))
  | issues =>
      ({ st with errors := issues.foldl (fun es p => setEntry es p.1 [p.2]) [] }, none)

/-- `handleSubmit` of the part_003 MovieForm variant (lines 74-91): same
shape as the TV-show form — errors rebuilt, `touched` untouched. -/
def handleSubmitMovie (st : MovieFormState) : MovieFormState × Option MovieFormData :=
  match validateAllMovie st.formData with
  | [] => (st, some (applyMovieDefaults st.formData))
  | issues =>
      ({ st with errors := issues.foldl (fun es p => setEntry es p.1 [p.2]) [] }, none)

/-- `handleSubmit` of the part_001 MovieForm variant (lines 71-96): issues
are accumulated per field and every key of `formData` is marked
touched. -/
def handleSubmitMovieTouchAll (st : MovieFormState) :
    MovieFormState × Option MovieFormData :=
  match validateAllMovie st.formData with
  | [] => (st, some (applyMovieDefaults st.formData))
  | issues =>
      ({ st with
          errors := issues.foldl (fun es p => pushEntry es p.1 p.2) [],
          touched := movieFormKeys }, none)

/-! ### Input coercion (`handleChange` / `handleBlur`) -/

/-- The longest leading run of decimal digits of a character list, with
the remainder. -/
def takeDigits : List Char → List Char × List Char
  | [] => ([], [])
  | c :: cs =>
      if c.isDigit then
        let p := takeDigits cs
        (c :: p.1, p.2)
      else ([], c :: cs)

/-- The natural number denoted by a digit run. -/
def digitsVal (ds : List Char) : Nat :=
  ds.foldl (fun a c => a * 10 + (c.toNat - 48)) 0

/-- JS `parseFloat`: skip leading whitespace, optional sign, then the
longest valid `digits[.digits]` run; `none` models `NaN` (no digits at
all).  Exponents and `Infinity` are not modelled; no claim exercises
them. -/
def parseFloat (s : String) : Option ℚ :=
  let cs := s.data.dropWhile (fun c => c == ' ' || c == '\t' || c == '\n')
  let signed : ℚ × List Char :=
    match cs with
    | '-' :: r => (-1, r)
    | '+' :: r => (1, r)
    | r => (1, r)
  let intPart := takeDigits signed.2
  let fracDigits : List Char :=
    match intPart.2 with
    | '.' :: r => (takeDigits r).1
    | _ => []
  if intPart.1.isEmpty && fracDigits.isEmpty then none
  else
    some (signed.1 *
      ((digitsVal intPart.1 : ℚ) + (digitsVal fracDigits : ℚ) / ((10 : ℚ) ^ fracDigits.length)))

/-- `type === 'number' ? parseFloat(value) || 0 : value`: `parseFloat`'s
`NaN` is falsy and becomes 0 (a parsed 0 is also falsy, and `|| 0` maps
it to the same 0). -/
def coerceInput (isNumber : Bool) (raw : String) : FieldValue :=
  if isNumber then FieldValue.num ((parseFloat raw).getD 0)
  else FieldValue.str raw

/-- `{ ...prev, [name]: newValue }` on the movie form's `formData`. -/
def setMovieField (fd : MovieFormData) (name : String) (v : FieldValue) : MovieFormData :=
  if name = "title" then { fd with title := v }
  else if name = "type" then { fd with type := v }
  else if name = "director" then { fd with director := v }
  else if name = "budget" then { fd with budget := v }
  else if name = "location" then { fd with location := v }
  else if name = "duration" then { fd with duration := v }
  else if name = "year" then { fd with year := v }
  else if name = "poster" then { fd with poster := v }
  else fd

/-- `handleChange` (MovieForm variants): coerce, store, and — only when
the field is already touched — revalidate it. -/
def handleChangeMovie (st : MovieFormState) (name : String) (isNumber : Bool)
    (raw : String) : MovieFormState :=
  let v := coerceInput isNumber raw
  { st with
    formData := setMovieField st.formData name v,
    errors :=
      if name ∈ st.touched then setEntry st.errors name (validateFieldMovie name v)
      else st.errors }

/-- `handleBlur` (MovieForm variants): coerce, mark the field touched and
validate it (the value is not stored on blur, only on change). -/
def handleBlurMovie (st : MovieFormState) (name : String) (isNumber : Bool)
    (raw : String) : MovieFormState :=
  let v := coerceInput isNumber raw
  { st with
    touched := if name ∈ st.touched then st.touched else name :: st.touched,
    errors := setEntry st.errors name (validateFieldMovie name v) }

/-! ### Validator lemmas and claim theorems -/

theorem errLookup_setEntry (es : List (String × List String)) (n : String)
    (v : List String) : errLookup (setEntry es n v) n = v := by
  induction es with
  | nil => simp [setEntry, errLookup, List.lookup]
  | cons p rest ih =>
    obtain ⟨k, w⟩ := p
    by_cases hk : k = n
    · subst hk
      simp [setEntry, errLookup, List.lookup]
    · have hk' : (n == k) = false := beq_eq_false_iff_ne.mpr (Ne.symm hk)
      simp only [setEntry, if_neg hk]
      simpa [errLookup, List.lookup, hk'] using ih

/-- The `formData` the TV-show add form starts from (TVShowForm.tsx
lines 28-39, with the current year taken as 2025). -/
def tvFormInitialData : TVShowFormData :=
  ⟨FieldValue.str "", FieldValue.str "tvshow", FieldValue.str "", FieldValue.num 0,
   FieldValue.str "", FieldValue.num 0, FieldValue.num 2025, FieldValue.undef,
   FieldValue.str ""⟩

/-- The TV-show form state right after opening the add modal. -/
def tvFormInitial : TVFormState := ⟨tvFormInitialData, [], []⟩

/-- The `formData` the movie add form starts from. -/
def movieFormInitialData : MovieFormData :=
  ⟨FieldValue.str "", FieldValue.str "movie", FieldValue.str "", FieldValue.num 0,
   FieldValue.str "", FieldValue.num 0, FieldValue.num 2025, FieldValue.str ""⟩

/-- The movie form state right after opening the add modal. -/
def movieFormInitial : MovieFormState := ⟨movieFormInitialData, [], []⟩

/-- Claim C7: `validateField('title', '')` yields exactly
`["Title is required"]`; `validateField('budget', -1)` yields exactly
`["Budget must be positive"]` while budget 0 is valid;
`validateField('duration', 0)` yields `["Duration must be positive"]`,
with 0 invalid and 1 valid — in both the movie and the TV-show schema. -/
theorem claim_C7 :
    validateFieldMovie "title" (FieldValue.str "") = ["Title is required"] ∧
    validateFieldTV "title" (FieldValue.str "") = ["Title is required"] ∧
    validateFieldMovie "budget" (FieldValue.num (-1)) = ["Budget must be positive"] ∧
    validateFieldMovie "budget" (FieldValue.num 0) = [] ∧
    validateFieldTV "budget" (FieldValue.num (-1)) = ["Budget must be positive"] ∧
    validateFieldMovie "duration" (FieldValue.num 0) = ["Duration must be positive"] ∧
    validateFieldMovie "duration" (FieldValue.num 1) = [] ∧
    validateFieldTV "duration" (FieldValue.num 0) = ["Duration must be positive"] ∧
    validateFieldTV "duration" (FieldValue.num 1) = [] := by
  decide

/-- Claim C2, counterexample: submitting the freshly opened TV-show form
(empty title, director, location, duration 0) produces violations and
aborts the submission, but `handleSubmit` of TVShowForm.tsx never marks
the fields touched — `title` has a violation yet is not in `touched`
afterwards, so its message stays invisible. -/
theorem claim_C2_counterexample :
    validateAllTV tvFormInitialData ≠ [] ∧
    (handleSubmitTV tvFormInitial).2 = none ∧
    ¬ ("title" ∈ (handleSubmitTV tvFormInitial).1.touched) := by
  decide

/-- Claim C2, amended: on any violation the submission is aborted
(`onSubmit` is not invoked, so no remote call is made) and per-field
error messages are recorded; but the TV-show form (and the part_003
MovieForm) leaves `touched` unchanged, so only already-touched fields
show their messages — only the part_001 MovieForm variant marks every
field of `formData` touched. -/
theorem claim_C2_amended (st : TVFormState) (stm : MovieFormState)
    (h : validateAllTV st.formData ≠ []) (hm : validateAllMovie stm.formData ≠ []) :
    (handleSubmitTV st).2 = none ∧
    (handleSubmitTV st).1.touched = st.touched ∧
    (handleSubmitMovie stm).2 = none ∧
    (handleSubmitMovie stm).1.touched = stm.touched ∧
    (handleSubmitMovieTouchAll stm).2 = none ∧
    (handleSubmitMovieTouchAll stm).1.touched = movieFormKeys := by
  obtain ⟨a, l, hv⟩ : ∃ a l, validateAllTV st.formData = a :: l := by
    cases hvv : validateAllTV st.formData with
    | nil => exact absurd hvv h
    | cons a l => exact ⟨a, l, rfl⟩
  obtain ⟨b, k, hw⟩ : ∃ b k, validateAllMovie stm.formData = b :: k := by
    cases hww : validateAllMovie stm.formData with
    | nil => exact absurd hww hm
    | cons b k => exact ⟨b, k, rfl⟩
  refine ⟨?_, ?_, ?_, ?_, ?_, ?_⟩ <;>
    simp [handleSubmitTV, handleSubmitMovie, handleSubmitMovieTouchAll, hv, hw]

/-- Witness for the amended C2 at the freshly opened add forms. -/
theorem claim_C2_witness :
    (handleSubmitTV tvFormInitial).2 = none ∧
    (handleSubmitTV tvFormInitial).1.touched = tvFormInitial.touched ∧
    (handleSubmitMovie movieFormInitial).2 = none ∧
    (handleSubmitMovie movieFormInitial).1.touched = movieFormInitial.touched ∧
    (handleSubmitMovieTouchAll movieFormInitial).2 = none ∧
    (handleSubmitMovieTouchAll movieFormInitial).1.touched = movieFormKeys :=
  claim_C2_amended tvFormInitial movieFormInitial (by decide) (by decide)

/-- Claim C8: a movie record with an empty `title` and `year = 1899`, all
other fields valid, fails full-schema validation with exactly one
violation on `title` and one on `year`, and none on any other field. -/
theorem claim_C8 (fd : MovieFormData)
    (ht : fd.title = FieldValue.str "")
    (hy : fd.year = FieldValue.num 1899)
    (hty : fd.type = FieldValue.undef ∨ fd.type = FieldValue.str "movie")
    (hd : ∃ s, fd.director = FieldValue.str s ∧ s ≠ "")
    (hb : ∃ q, fd.budget = FieldValue.num q ∧ 0 ≤ q)
    (hl : ∃ s, fd.location = FieldValue.str s ∧ s ≠ "")
    (hdu : ∃ q, fd.duration = FieldValue.num q ∧ q.den = 1 ∧ 1 ≤ q)
    (hp : fd.poster = FieldValue.undef ∨ ∃ s, fd.poster = FieldValue.str s) :
    validateAllMovie fd
      = [("title", "Title is required"), ("year", "Year must be after 1900")] := by
  obtain ⟨ds, hds, hdne⟩ := hd
  obtain ⟨bq, hbq, hbnn⟩ := hb
  obtain ⟨ls, hls, hlne⟩ := hl
  obtain ⟨dq, hdq, hdint, hdpos⟩ := hdu
  have hdlen : ¬ (ds.length < 1) := by
    have h0 : ds.length ≠ 0 :=
      fun h0 => hdne (String.ext (List.eq_nil_of_length_eq_zero h0))
    omega
  have hllen : ¬ (ls.length < 1) := by
    have h0 : ls.length ≠ 0 :=
      fun h0 => hlne (String.ext (List.eq_nil_of_length_eq_zero h0))
    omega
  have hblt : ¬ (bq < 0) := not_lt.mpr hbnn
  have hdlt : ¬ (dq < 1) := not_lt.mpr hdpos
  have hyden : ((1899 : ℚ)).den = 1 := rfl
  have hylt : (1899 : ℚ) < 1900 := by norm_num
  rcases hty with hty | hty <;> rcases hp with hp | ⟨ps, hp⟩ <;>
    simp [validateAllMovie, validateAllBy, movieSchemaFields, getMovieField,
      ht, hy, hty, hds, hbq, hls, hdq, hp, zodStringMin1, zodLiteralDefault,
      zodNumberMin, zodNumberIntMin, zodOpt, zodStringPlain,
      hdlen, hllen, hblt, hdlt, hdint, hyden, hylt]

/-- Witness for C8: the end-to-end example record (Dune) with its title
cleared and its year set to 1899. -/
theorem claim_C8_witness :
    validateAllMovie
      ⟨FieldValue.str "", FieldValue.str "movie", FieldValue.str "Villeneuve",
       FieldValue.num 165, FieldValue.str "Jordan", FieldValue.num 155,
       FieldValue.num 1899, FieldValue.str ""⟩
      = [("title", "Title is required"), ("year", "Year must be after 1900")] :=
  claim_C8 _ rfl rfl (Or.inr rfl)
    ⟨"Villeneuve", rfl, by decide⟩
    ⟨165, rfl, by norm_num⟩
    ⟨"Jordan", rfl, by decide⟩
    ⟨155, rfl, rfl, by norm_num⟩
    (Or.inr ⟨"", rfl⟩)

/-- Claim C9: on a change or blur of a numeric field, an input whose
`parseFloat` is `NaN` (empty or non-numeric) is coerced to 0 before being
stored and validated; clearing `duration` therefore stores 0 and records
exactly the violation "Duration must be positive", while clearing
`budget` stores 0 and records no violation. -/
theorem claim_C9 (st : MovieFormState) (raw : String) (h : parseFloat raw = none) :
    coerceInput true raw = FieldValue.num 0 ∧
    (handleChangeMovie st "duration" true raw).formData.duration = FieldValue.num 0 ∧
    (handleChangeMovie st "budget" true raw).formData.budget = FieldValue.num 0 ∧
    errLookup (handleBlurMovie st "duration" true raw).errors "duration"
      = ["Duration must be positive"] ∧
    errLookup (handleBlurMovie st "budget" true raw).errors "budget" = [] := by
  have hc : coerceInput true raw = FieldValue.num 0 := by
    simp [coerceInput, h]
  refine ⟨hc, ?_, ?_, ?_, ?_⟩
  · show (setMovieField st.formData "duration" (coerceInput true raw)).duration = _
    rw [hc]
    rfl
  · show (setMovieField st.formData "budget" (coerceInput true raw)).budget = _
    rw [hc]
    rfl
  · have he : (handleBlurMovie st "duration" true raw).errors
        = setEntry st.errors "duration" (validateFieldMovie "duration" (FieldValue.num 0)) := by
      simp [handleBlurMovie, hc]
    rw [he, errLookup_setEntry]
    decide
  · have he : (handleBlurMovie st "budget" true raw).errors
        = setEntry st.errors "budget" (validateFieldMovie "budget" (FieldValue.num 0)) := by
      simp [handleBlurMovie, hc]
    rw [he, errLookup_setEntry]
    decide

/-- Witness for C9: clearing the field gives the empty input string,
whose `parseFloat` is `NaN`. -/
theorem claim_C9_witness :
    coerceInput true "" = FieldValue.num 0 ∧
    (handleChangeMovie movieFormInitial "duration" true "").formData.duration
      = FieldValue.num 0 ∧
    (handleChangeMovie movieFormInitial "budget" true "").formData.budget
      = FieldValue.num 0 ∧
    errLookup (handleBlurMovie movieFormInitial "duration" true "").errors "duration"
      = ["Duration must be positive"] ∧
    errLookup (handleBlurMovie movieFormInitial "budget" true "").errors "budget" = [] :=
  claim_C9 movieFormInitial "" (by decide)

/-! ## Table presenter (`DataTable.tsx`, `movieColumns` in `App.tsx`) -/

/-- A table row (`MediaItem`): fields a column accessor can pick, each
possibly absent (`undef` models both `null` and `undefined`). -/
structure MediaItem where
  id : String
  title : FieldValue
  type : FieldValue
  director : FieldValue
  budget : FieldValue
  location : FieldValue
  duration : FieldValue
  year : FieldValue
  startYear : FieldValue
  endYear : FieldValue
  poster : FieldValue
deriving DecidableEq

/-- `item[column.accessor]` (DataTable.tsx line 29). -/
def accessField (item : MediaItem) : String → FieldValue
  | "id" => FieldValue.str item.id
  | "title" => item.title
  | "type" => item.type
  | "director" => item.director
  | "budget" => item.budget
  | "location" => item.location
  | "duration" => item.duration
  | "year" => item.year
  | "startYear" => item.startYear
  | "endYear" => item.endYear
  | "poster" => item.poster
  | _ => FieldValue.undef

/-- JS truthiness of a cell value: the number 0, the empty string and
`null`/`undefined` are falsy. -/
def truthy : FieldValue → Bool
  | FieldValue.num q => if q = 0 then false else true
  | FieldValue.str s => if s = "" then false else true
  | FieldValue.undef => false

/-- Insert a thousands separator after every third character of a
reversed digit list. -/
def insertCommasRev : List Char → List Char
  | a :: b :: c :: d :: rest => a :: b :: c :: ',' :: insertCommasRev (d :: rest)
  | l => l

/-- A natural number with thousands separators. -/
def groupDigits (n : Nat) : String :=
  String.mk (insertCommasRev (Nat.toDigits 10 n).reverse).reverse

/-- `Number(value)` coercion: numbers pass through, a blank string is 0,
other strings are parsed (approximated by `parseFloat`; `Number` and
`parseFloat` differ only on inputs no claim exercises), `undefined` is
`NaN`. -/
def jsNumber : FieldValue → Option ℚ
  | FieldValue.num q => some q
  | FieldValue.str s => if s.data.all (fun c => c == ' ') then some 0 else parseFloat s
  | FieldValue.undef => none

/-- `String(value)` for a number, and the integer part of
`toLocaleString`: non-integer rationals fall back to the `ℚ`
representation (JS float formatting is not modelled; no claim depends on
it). -/
def jsNumToString (q : ℚ) : String :=
  if q.den = 1 then
    (if q.num < 0 then "-" ++ toString q.num.natAbs else toString q.num.natAbs)
  else toString q

/-- `Number(value).toLocaleString()`, integers grouped in thousands. -/
def toLocaleString : Option ℚ → String
  | none => "NaN"
  | some q =>
      if q.den = 1 then
        (if q.num < 0 then "-" ++ groupDigits q.num.natAbs else groupDigits q.num.natAbs)
      else toString q

/-- `String(value ?? '')` (DataTable.tsx line 33). -/
def jsDisplayString : FieldValue → String
  | FieldValue.undef => ""
  | FieldValue.str s => s
  | FieldValue.num q => jsNumToString q

/-- A column descriptor: header label, field accessor, optional display
formatter (DataTable.tsx lines 5-9). -/
structure Column where
  header : String
  accessor : String
  render : Option (FieldValue → MediaItem → String)

/-- `formatValue` (DataTable.tsx lines 28-34): apply the column's
formatter when present, else stringify with `String(value ?? '')`. -/
def formatValue (column : Column) (item : MediaItem) : String :=
  let value := accessField item column.accessor
  match column.render with
  | some r => r value item
  | none => jsDisplayString value

/-- The Budget formatter of `movieColumns` (App.tsx line 128):
`value ? `$...M` : '-'` — a truthiness test, so 0 renders as "-". -/
def movieBudgetRender : FieldValue → MediaItem → String :=
  fun value _ =>
    if truthy value then "$" ++ toLocaleString (jsNumber value) ++ "M" else "-"

/-- The Duration formatter of `movieColumns` (App.tsx line 134). -/
def movieDurationRender : FieldValue → MediaItem → String :=
  fun value _ =>
    if truthy value then jsDisplayString value ++ " min" else "-"

/-- The Year/Time formatter of `movieColumns` (App.tsx line 139). -/
def movieYearRender : FieldValue → MediaItem → String :=
  fun value _ =>
    if truthy value then jsDisplayString value else "-"

def movieBudgetColumn : Column := ⟨"Budget", "budget", some movieBudgetRender⟩

def movieDurationColumn : Column := ⟨"Duration", "duration", some movieDurationRender⟩

/-- `movieColumns` (App.tsx lines 121-141). -/
def movieColumns : List Column :=
  [⟨"Title", "title", none⟩,
   ⟨"Type", "type", none⟩,
   ⟨"Director", "director", none⟩,
   movieBudgetColumn,
   ⟨"Location", "location", none⟩,
   movieDurationColumn,
   ⟨"Year/Time", "year", some movieYearRender⟩]

/-- Claim C10: a record whose `budget` or `duration` is 0 renders the
placeholder "-" in that cell, because the formatters test truthiness
rather than presence; and a cell of a formatter-less column stringifies
a `null`/`undefined` value as the empty string. -/
theorem claim_C10 (item : MediaItem) (c : Column) (it : MediaItem)
    (hb : item.budget = FieldValue.num 0)
    (hd : item.duration = FieldValue.num 0)
    (hr : c.render = none)
    (ha : accessField it c.accessor = FieldValue.undef) :
    formatValue movieBudgetColumn item = "-" ∧
    formatValue movieDurationColumn item = "-" ∧
    formatValue c it = "" := by
  refine ⟨?_, ?_, ?_⟩
  · simp [formatValue, movieBudgetColumn, accessField, hb, movieBudgetRender, truthy]
  · simp [formatValue, movieDurationColumn, accessField, hd, movieDurationRender, truthy]
  · simp [formatValue, hr, ha, jsDisplayString]

/-- A row with zero budget and duration and no title, as the witness
record for C10. -/
def sampleZeroItem : MediaItem :=
  ⟨"abc123", FieldValue.undef, FieldValue.str "movie", FieldValue.str "Villeneuve",
   FieldValue.num 0, FieldValue.str "Jordan", FieldValue.num 0, FieldValue.num 2021,
   FieldValue.undef, FieldValue.undef, FieldValue.undef⟩

/-- Witness for C10: the zero-budget row renders "-" in Budget and
Duration, and the formatter-less Title column renders its missing value
as the empty string. -/
theorem claim_C10_witness :
    formatValue movieBudgetColumn sampleZeroItem = "-" ∧
    formatValue movieDurationColumn sampleZeroItem = "-" ∧
    formatValue ⟨"Title", "title", none⟩ sampleZeroItem = "" :=
  claim_C10 sampleZeroItem ⟨"Title", "title", none⟩ sampleZeroItem rfl rfl rfl rfl

end Frontend
